/-
Verification of the cloud-init provisioning-and-restriction subsystem
(sysconfig/cloudinit.go): datasource extraction, grade-based config
installation, the status oracle and the one-shot restriction engine.

Modelling conventions:
- Go string values stay `String`; Go `[]string` stays `List String`.
- The keys of the Go maps `Datasource` / `Reporting` are modelled as the
  list of key names (iteration order is irrelevant because the code sorts
  every output list before returning it).
- `*[]string` (a nil-able slice pointer) is `Option (List String)`.
- Filesystem effects are modelled over the exact file footprint that the
  functions touch; successful I/O is assumed (mkdir/write failures are the
  OS's, not the logic's).
-/
import Mathlib

namespace Cloudinit

/-- Model of Go `strings.ToUpper` restricted to the character-by-character
mapping (ASCII case folding via `Char.toUpper`, identity elsewhere). -/
def toUpperStr (s : String) : String := ⟨s.data.map Char.toUpper⟩

/-- Model of Go `sort.Strings`: ascending lexicographic sort. -/
def sortStrings (l : List String) : List String := l.insertionSort (· ≤ ·)

/-- The supported (filtered) shape of a cloud-init configuration document,
after YAML decoding: the `datasource` block keys, the `reporting` block
keys, and the optional `datasource_list` field.  The `network` block carries
no datasource names and is omitted.  `DatasourceList` is a pointer in the
source so that `datasource_list: []` and an absent field stay distinct;
here that is `Option (List String)`. -/
structure SupportedFilteredCloudConfig where
  datasourceKeys : List String
  reportingKeys : List String
  datasourceList : Option (List String)

/-- Result record of `cloudDatasourcesInUse` (struct
`cloudDatasourcesInUseResult`). -/
structure CloudDatasourcesInUseResult where
  explicitlyAllowed : List String
  explicitlyNoneAllowed : Bool
  mentioned : List String
deriving DecidableEq, Repr

/-- `cloudDatasourcesInUse`, the datasource extractor, modelled on an
already-decoded document (file reading and YAML unmarshalling are the
caller's I/O and the yaml library; their failures abort before this logic
runs).  All names are upper-cased on insertion into the mention set, so the
final `strings.ToUpper` the source applies when draining the set is a
no-op and is not repeated here.  The Go map-backed sets become
`List.dedup` followed by sorting, and the `len == 0` test on the non-nil
list pointer is the empty-list pattern. -/
def cloudDatasourcesInUse (cfg : SupportedFilteredCloudConfig) :
    CloudDatasourcesInUseResult :=
  let fromDs := cfg.datasourceKeys.map toUpperStr
  let fromRep := cfg.reportingKeys.map toUpperStr
  match cfg.datasourceList with
  | none =>
      { explicitlyAllowed := []
        explicitlyNoneAllowed := false
        mentioned := sortStrings (fromDs ++ fromRep).dedup }
  | some [] =>
      { explicitlyAllowed := []
        explicitlyNoneAllowed := true
        mentioned := sortStrings (fromDs ++ fromRep).dedup }
  | some (d :: ds) =>
      let fromList := (d :: ds).map toUpperStr
      { explicitlyAllowed := sortStrings fromList.dedup
        explicitlyNoneAllowed := false
        mentioned := sortStrings (fromDs ++ fromRep ++ fromList).dedup }

/-- `CloudInitState`, the states the status oracle can report. -/
inductive CloudInitState
  | cloudInitDisabledPermanently
  | cloudInitRestrictedBySnapd
  | cloudInitUntriggered
  | cloudInitDone
  | cloudInitEnabled
  | cloudInitNotFound
  | cloudInitErrored
deriving DecidableEq, Repr

/-- Path constant `cloudInitSnapdRestrictFile` (relative to the root). -/
def cloudInitSnapdRestrictFile : String := "/etc/cloud/cloud.cfg.d/zzzz_snapd.cfg"

/-- Path constant `cloudInitDisabledFile` (relative to the root). -/
def cloudInitDisabledFile : String := "/etc/cloud/cloud-init.disabled"

/-- The result of opening and JSON-decoding `run/cloud-init/status.json`
(struct `cloudInitStatus` with its `v1.datasource` field).  The decoding
itself is `encoding/json`; the three observable outcomes the code branches
on are: the open fails (file missing/unreadable), the decode fails, or a
decode succeeds and yields the raw `v1.datasource` string (possibly empty,
since a JSON object without the field decodes to the zero value). -/
inductive StatusJson
  | missing
  | undecodable
  | decoded (datasource : String)
deriving DecidableEq, Repr

/-- The file footprint of the subsystem under `dirs.GlobalRootDir`:
content (`some c`) or absence (`none`) of the snapd restriction file
`etc/cloud/cloud.cfg.d/zzzz_snapd.cfg`, of the disable sentinel
`etc/cloud/cloud-init.disabled`, and the observable decode outcome of
`run/cloud-init/status.json`. -/
structure FS where
  restrictFile : Option String
  disabledFile : Option String
  statusJson : StatusJson
deriving DecidableEq, Repr

/-- `DisableCloudInit` writes an empty `cloud-init.disabled` sentinel under
the given root (`ioutil.WriteFile(..., nil, 0644)`); the `MkdirAll` is
idempotent directory creation with no observable content. -/
def DisableCloudInit (fs : FS) : FS :=
  { fs with disabledFile := some "" }

/-- Environment for the live part of the status oracle: whether
`exec.LookPath("cloud-init")` finds the executable, whether the
`cloud-init status` invocation exits successfully, and its combined
output. -/
structure CloudInitEnv where
  hasBinary : Bool
  cmdSucceeds : Bool
  cmdOutput : String
deriving DecidableEq, Repr

/-- Errors the status oracle can return. -/
inductive CloudInitStatusErr
  | commandFailed
  | invalidOutput
deriving DecidableEq, Repr

/-- Split a character sequence into its newline-separated lines (the line
structure the `(?m)` multi-line anchors of `cloudInitStatusRe` see). -/
def splitLines : List Char → List (List Char)
  | [] => [[]]
  | c :: rest =>
      if c = '\n' then [] :: splitLines rest
      else
        match splitLines rest with
        | [] => [[c]]
        | l :: ls => (c :: l) :: ls

/-- Model of `cloudInitStatusRe.FindSubmatch` for the multi-line pattern
status-colon-space-rest anchored at line start: the first line of the
output that starts with the literal prefix yields the remainder of that
line (the capture group), otherwise there is no match. -/
def findStatusLine (out : String) : Option String :=
  (splitLines out.data).findSome? fun l =>
    if l.take 8 = "status: ".data then some ⟨l.drop 8⟩ else none

/-- The `switch string(match[1])` mapping a reported status word to a
`CloudInitState` (the tail of `CloudInitStatus`): `disabled` is the
untriggered state, `error` the errored state, `done` the done state, and
everything else, `running` and `not run` included, is the enabled state. -/
def statusWordState (w : String) : CloudInitState :=
  if w = "disabled" then .cloudInitUntriggered
  else if w = "error" then .cloudInitErrored
  else if w = "done" then .cloudInitDone
  else .cloudInitEnabled

/-- `CloudInitStatus`, the status oracle: the snapd restriction file is
checked first, then the disable sentinel, then the presence of the
executable, then the output of `cloud-init status` is parsed. -/
def CloudInitStatus (fs : FS) (env : CloudInitEnv) :
    CloudInitState × Option CloudInitStatusErr :=
  if (fs.restrictFile).isSome then (.cloudInitRestrictedBySnapd, none)
  else if (fs.disabledFile).isSome then (.cloudInitDisabledPermanently, none)
  else if !env.hasBinary then (.cloudInitNotFound, none)
  else if !env.cmdSucceeds then (.cloudInitErrored, some .commandFailed)
  else
    match findStatusLine env.cmdOutput with
    | none => (.cloudInitErrored, some .invalidOutput)
    | some w => (statusWordState w, none)

/-- `isAlnum c` is membership in the character class of the datasource
pattern: an ASCII letter or digit. -/
def isAlnum (c : Char) : Bool :=
  ('a' ≤ c && c ≤ 'z') || ('A' ≤ c && c ≤ 'Z') || ('0' ≤ c && c ≤ '9')

/-- Model of `datasourceRe.FindStringSubmatch` for the pattern
`DataSource` followed by one or more alphanumerics followed by anything:
scan for the leftmost position where the literal `DataSource` is followed
by at least one alphanumeric character, and capture the maximal
alphanumeric run after the literal.  `nil` (no match) corresponds to
`none`. -/
def datasourceMatch : List Char → Option (List Char)
  | [] => none
  | c :: rest =>
      if (c :: rest).take 10 = "DataSource".toList
          && (match (c :: rest).drop 10 with
              | d :: _ => isAlnum d
              | [] => false) then
        some (((c :: rest).drop 10).takeWhile isAlnum)
      else
        datasourceMatch rest

/-- The captured datasource name (`datasourceMatches[1]`) for a raw
`v1.datasource` string, if the pattern matches. -/
def datasourceReFind (s : String) : Option String :=
  (datasourceMatch s.data).map fun l => ⟨l⟩

/-- `nocloudRestrictYaml`, the restriction document written for the NoCloud
datasource: it pins `datasource_list`, nulls the `fs_label` used for
filesystem-label auto-import, and sets `manual_cache_clean`. -/
def nocloudRestrictYaml : String :=
  "datasource_list: [NoCloud]\ndatasource:\n  NoCloud:\n    fs_label: null\nmanual_cache_clean: true\n"

/-- `genericCloudRestrictYamlPattern` applied to a datasource name by
`fmt.Sprintf`: the pinning document for non-NoCloud datasources. -/
def genericCloudRestrictYaml (ds : String) : String :=
  "datasource_list: [" ++ ds ++ "]\n"

/-- `localDatasources`. -/
def localDatasources : List String := ["NoCloud", "None"]

/-- `CloudInitRestrictionResult`. -/
structure CloudInitRestrictionResult where
  action : String
  dataSource : String
deriving DecidableEq, Repr

/-- `CloudInitRestrictOptions`. -/
structure CloudInitRestrictOptions where
  forceDisable : Bool
  disableAfterLocalDatasourcesRun : Bool
deriving DecidableEq, Repr

/-- The zero value of `CloudInitRestrictOptions`, what a nil `opts`
argument becomes. -/
def zeroRestrictOpts : CloudInitRestrictOptions :=
  { forceDisable := false, disableAfterLocalDatasourcesRun := false }

/-- Errors `RestrictCloudInit` can return, in source order. -/
inductive RestrictErr
  | alreadyRestricted
  | alreadyDisabled
  | errorOrEnabledState
  | openStatusJson
  | decodeStatusJson
  | missingDatasource
  | unexpectedDatasourceFormat (raw : String)
deriving DecidableEq, Repr

/-- The full return of a `RestrictCloudInit` call: the
`CloudInitRestrictionResult`, the error, and the filesystem after the
call. -/
structure RestrictOutcome where
  res : CloudInitRestrictionResult
  err : Option RestrictErr
  fs : FS
deriving DecidableEq, Repr

/-- `RestrictCloudInit`, the restriction engine.  A nil `opts` becomes the
zero-value options.  States other than done either error (already
restricted, already disabled, errored/enabled without `ForceDisable`) or
fall through to the disable action; the done state reads the decoded
`status.json`, extracts the datasource name with the pattern, and then
either disables (local datasource under
`DisableAfterLocalDatasourcesRun`), writes the NoCloud restriction
document, or writes the generic single-datasource pinning document. -/
def RestrictCloudInit (state : CloudInitState)
    (opts0 : Option CloudInitRestrictOptions) (fs : FS) : RestrictOutcome :=
  let opts := opts0.getD zeroRestrictOpts
  let res : CloudInitRestrictionResult := { action := "", dataSource := "" }
  match state with
  | .cloudInitRestrictedBySnapd => { res := res, err := some .alreadyRestricted, fs := fs }
  | .cloudInitDisabledPermanently => { res := res, err := some .alreadyDisabled, fs := fs }
  | .cloudInitErrored | .cloudInitEnabled =>
      if !opts.forceDisable then
        { res := res, err := some .errorOrEnabledState, fs := fs }
      else
        { res := { res with action := "disable" }, err := none, fs := DisableCloudInit fs }
  | .cloudInitUntriggered | .cloudInitNotFound =>
      { res := { res with action := "disable" }, err := none, fs := DisableCloudInit fs }
  | .cloudInitDone =>
      let res := { res with action := "restrict" }
      match fs.statusJson with
      | .missing => { res := res, err := some .openStatusJson, fs := fs }
      | .undecodable => { res := res, err := some .decodeStatusJson, fs := fs }
      | .decoded datasourceRaw =>
          if datasourceRaw = "" then
            { res := res, err := some .missingDatasource, fs := fs }
          else
            match datasourceReFind datasourceRaw with
            | none =>
                { res := res, err := some (.unexpectedDatasourceFormat datasourceRaw), fs := fs }
            | some ds =>
                let res := { res with dataSource := ds }
                if opts.disableAfterLocalDatasourcesRun && localDatasources.contains ds then
                  { res := { res with action := "disable" }, err := none
                    fs := DisableCloudInit fs }
                else if ds = "NoCloud" then
                  { res := res, err := none
                    fs := { fs with restrictFile := some nocloudRestrictYaml } }
                else
                  { res := res, err := none
                    fs := { fs with restrictFile := some (genericCloudRestrictYaml ds) } }

/-- The fields of `sysconfig.Options` that `configureCloudInit` reads. -/
structure Options where
  targetRootDir : String
  allowCloudInit : Bool
  cloudInitSrcDir : String
  gadgetDir : String
deriving DecidableEq, Repr

/-- Errors `configureCloudInit` can return from its own logic (I/O
failures of the delegated copy/mkdir helpers are assumed absent). -/
inductive ConfigureErr
  | missingTargetDir
  | unknownGrade (grade : String)
deriving DecidableEq, Repr

/-- Modelled from the spec: `WritableDefaultsDir` is defined elsewhere in
the repository (not among the provided sources); per the spec all paths are
relative to a configurable root, and this maps the target root to the
directory whose `etc/cloud` tree receives the configuration. -/
def WritableDefaultsDir (rootdir : String) : String :=
  rootdir ++ "/_writable_defaults"

/-- The installation actions `configureCloudInit` can take, with the
arguments of the corresponding calls: `DisableCloudInit` on the writable
defaults dir, `installGadgetCloudInitCfg` (copies the gadget `cloud.conf`
to `80_device_gadget.cfg`), and `installCloudInitCfgDir` (copies the
seed-area `*.cfg` files with the given filename prefix and filtering
flag). -/
inductive InstallStep
  | disableCloudInit (rootDir : String)
  | installGadgetCloudInitCfg (src : String) (targetdir : String)
  | installCloudInitCfgDir (src : String) (targetdir : String)
      (prefixStr : String) (filter : Bool)
deriving DecidableEq, Repr

/-- Whether a step installs configuration from the seed area
(a `installCloudInitCfgDir` call). -/
def InstallStep.isSeedInstall : InstallStep → Bool
  | .installCloudInitCfgDir _ _ _ _ => true
  | _ => false

/-- `configureCloudInit` as the trace of installation actions it performs
together with its returned error.  `grade` is the model grade string
(`asserts.ModelSecured` is `secured`, and so on); `hasGadgetCloudConf` is
the result of the `HasGadgetCloudConf(opts.GadgetDir)` existence check.
For grade dangerous the seed-area config is installed unfiltered with the
`90_` prefix (sorting after the gadget's `80_` file); for secured and
signed the function returns right after the gadget step. -/
def configureCloudInit (grade : String) (hasGadgetCloudConf : Bool)
    (opts : Options) : List InstallStep × Option ConfigureErr :=
  if opts.targetRootDir = "" then ([], some .missingTargetDir)
  else if !opts.allowCloudInit then
    ([.disableCloudInit (WritableDefaultsDir opts.targetRootDir)], none)
  else
    let gadgetSteps : List InstallStep :=
      if hasGadgetCloudConf then
        [.installGadgetCloudInitCfg (opts.gadgetDir ++ "/cloud.conf")
          (WritableDefaultsDir opts.targetRootDir)]
      else []
    if grade = "secured" then (gadgetSteps, none)
    else if grade = "signed" then (gadgetSteps, none)
    else if grade = "dangerous" then
      if opts.cloudInitSrcDir ≠ "" then
        (gadgetSteps ++ [.installCloudInitCfgDir opts.cloudInitSrcDir
          (WritableDefaultsDir opts.targetRootDir) "90_" false], none)
      else (gadgetSteps, none)
    else (gadgetSteps, some (.unknownGrade grade))

/-! ### Helper lemmas -/

lemma mem_sortStrings {s : String} {l : List String} :
    s ∈ sortStrings l ↔ s ∈ l :=
  List.mem_insertionSort _

lemma sorted_sortStrings (l : List String) :
    (sortStrings l).Sorted (· ≤ ·) :=
  List.sorted_insertionSort _ l

/-- C8: an explicitly empty `datasource_list` yields
`ExplicitlyNoneAllowed = true` with an empty allow-list, while an absent
`datasource_list` yields `ExplicitlyNoneAllowed = false` with a nil
allow-list, so the two cases keep distinct representations. -/
theorem cloudDatasourcesInUse_empty_vs_absent (cfg : SupportedFilteredCloudConfig) :
    (cfg.datasourceList = some [] →
      (cloudDatasourcesInUse cfg).explicitlyNoneAllowed = true ∧
      (cloudDatasourcesInUse cfg).explicitlyAllowed = []) ∧
    (cfg.datasourceList = none →
      (cloudDatasourcesInUse cfg).explicitlyNoneAllowed = false ∧
      (cloudDatasourcesInUse cfg).explicitlyAllowed = []) := by
  constructor <;> intro h <;> simp [cloudDatasourcesInUse, h]

/-- Witness for C8 at a concrete document. -/
theorem cloudDatasourcesInUse_empty_vs_absent_witness :
    ((cloudDatasourcesInUse ⟨["MAAS"], [], some []⟩).explicitlyNoneAllowed = true ∧
      (cloudDatasourcesInUse ⟨["MAAS"], [], some []⟩).explicitlyAllowed = []) ∧
    ((cloudDatasourcesInUse ⟨["MAAS"], [], none⟩).explicitlyNoneAllowed = false ∧
      (cloudDatasourcesInUse ⟨["MAAS"], [], none⟩).explicitlyAllowed = []) :=
  ⟨(cloudDatasourcesInUse_empty_vs_absent ⟨["MAAS"], [], some []⟩).1 rfl,
    (cloudDatasourcesInUse_empty_vs_absent ⟨["MAAS"], [], none⟩).2 rfl⟩

/-- C9: extraction invariants — `Mentioned` is a superset of
`ExplicitlyAllowed`, every name in either list is an upper-cased name,
both lists are sorted ascending, and the whole result depends only on the
upper-cased spelling of the input names (case-insensitivity). -/
theorem cloudDatasourcesInUse_invariants (cfg : SupportedFilteredCloudConfig) :
    (∀ s ∈ (cloudDatasourcesInUse cfg).explicitlyAllowed,
      s ∈ (cloudDatasourcesInUse cfg).mentioned) ∧
    (∀ s ∈ (cloudDatasourcesInUse cfg).explicitlyAllowed, ∃ t, s = toUpperStr t) ∧
    (∀ s ∈ (cloudDatasourcesInUse cfg).mentioned, ∃ t, s = toUpperStr t) ∧
    (cloudDatasourcesInUse cfg).explicitlyAllowed.Sorted (· ≤ ·) ∧
    (cloudDatasourcesInUse cfg).mentioned.Sorted (· ≤ ·) ∧
    (∀ cfg2 : SupportedFilteredCloudConfig,
      cfg.datasourceKeys.map toUpperStr = cfg2.datasourceKeys.map toUpperStr →
      cfg.reportingKeys.map toUpperStr = cfg2.reportingKeys.map toUpperStr →
      cfg.datasourceList.map (List.map toUpperStr) =
        cfg2.datasourceList.map (List.map toUpperStr) →
      cloudDatasourcesInUse cfg = cloudDatasourcesInUse cfg2) := by
  refine ⟨?_, ?_, ?_, ?_, ?_, ?_⟩
  · intro s hs
    rcases hdl : cfg.datasourceList with _ | (_ | ⟨d, ds⟩) <;>
      simp [cloudDatasourcesInUse, hdl, sortStrings, List.mem_insertionSort] at hs ⊢
    rcases hs with h | h
    · exact Or.inr (Or.inr (Or.inl h))
    · exact Or.inr (Or.inr (Or.inr h))
  · intro s hs
    rcases hdl : cfg.datasourceList with _ | (_ | ⟨d, ds⟩) <;>
      simp [cloudDatasourcesInUse, hdl, sortStrings, List.mem_insertionSort] at hs ⊢
    rcases hs with h | ⟨t, _, ht⟩
    · exact ⟨d, h⟩
    · exact ⟨t, ht.symm⟩
  · intro s hs
    rcases hdl : cfg.datasourceList with _ | (_ | ⟨d, ds⟩) <;>
      simp [cloudDatasourcesInUse, hdl, sortStrings, List.mem_insertionSort] at hs ⊢
    · rcases hs with ⟨t, _, ht⟩ | ⟨t, _, ht⟩ <;> exact ⟨t, ht.symm⟩
    · rcases hs with ⟨t, _, ht⟩ | ⟨t, _, ht⟩ <;> exact ⟨t, ht.symm⟩
    · rcases hs with ⟨t, _, ht⟩ | ⟨t, _, ht⟩ | h | ⟨t, _, ht⟩
      · exact ⟨t, ht.symm⟩
      · exact ⟨t, ht.symm⟩
      · exact ⟨d, h⟩
      · exact ⟨t, ht.symm⟩
  · rcases hdl : cfg.datasourceList with _ | (_ | ⟨d, ds⟩) <;>
      simp only [cloudDatasourcesInUse, hdl] <;>
      first
        | exact List.sorted_nil
        | exact sorted_sortStrings _
  · rcases hdl : cfg.datasourceList with _ | (_ | ⟨d, ds⟩) <;>
      simp only [cloudDatasourcesInUse, hdl] <;>
      exact sorted_sortStrings _
  · intro cfg2 h1 h2 h3
    rcases hdl : cfg.datasourceList with _ | dsl <;>
      rcases hdl2 : cfg2.datasourceList with _ | dsl2 <;>
      rw [hdl, hdl2] at h3 <;> simp at h3
    · simp [cloudDatasourcesInUse, hdl, hdl2, h1, h2]
    · rcases dsl with _ | ⟨a, l⟩ <;> rcases dsl2 with _ | ⟨b, m⟩ <;>
        simp_all [cloudDatasourcesInUse]

/-- Witness for C9: the case-insensitivity conjunct applied at two
concrete documents that differ only in the case of the names, and the
superset conjunct applied at a concrete member. -/
theorem cloudDatasourcesInUse_invariants_witness :
    cloudDatasourcesInUse ⟨["maas"], ["MAAS"], some ["Maas"]⟩ =
      cloudDatasourcesInUse ⟨["Maas"], ["maas"], some ["MAAS"]⟩ ∧
    "MAAS" ∈ (cloudDatasourcesInUse ⟨["maas"], ["MAAS"], some ["Maas"]⟩).mentioned :=
  ⟨(cloudDatasourcesInUse_invariants ⟨["maas"], ["MAAS"], some ["Maas"]⟩).2.2.2.2.2
      ⟨["Maas"], ["maas"], some ["MAAS"]⟩ (by decide) (by decide) (by decide),
    (cloudDatasourcesInUse_invariants ⟨["maas"], ["MAAS"], some ["Maas"]⟩).1
      "MAAS" (by decide)⟩

/-- C10: with no marker files, an executable present and a successful
status command whose output parses to the single-line status form, the
oracle maps `disabled` to untriggered, `error` to errored, `done` to done,
and every other word — `running` and `not run` included — to enabled. -/
theorem cloudInitStatus_word_mapping (fs : FS) (env : CloudInitEnv) (w : String)
    (h1 : fs.restrictFile = none) (h2 : fs.disabledFile = none)
    (h3 : env.hasBinary = true) (h4 : env.cmdSucceeds = true)
    (h5 : findStatusLine env.cmdOutput = some w) :
    CloudInitStatus fs env = (statusWordState w, none) ∧
    statusWordState "disabled" = CloudInitState.cloudInitUntriggered ∧
    statusWordState "error" = CloudInitState.cloudInitErrored ∧
    statusWordState "done" = CloudInitState.cloudInitDone ∧
    statusWordState "running" = CloudInitState.cloudInitEnabled ∧
    statusWordState "not run" = CloudInitState.cloudInitEnabled ∧
    (w ≠ "disabled" → w ≠ "error" → w ≠ "done" →
      CloudInitStatus fs env = (CloudInitState.cloudInitEnabled, none)) := by
  have hmain : CloudInitStatus fs env = (statusWordState w, none) := by
    simp [CloudInitStatus, h1, h2, h3, h4, h5]
  refine ⟨hmain, rfl, rfl, rfl, rfl, rfl, ?_⟩
  intro hw1 hw2 hw3
  rw [hmain]
  simp [statusWordState, hw1, hw2, hw3]

/-- Witness for C10 at a concrete filesystem and agent output. -/
theorem cloudInitStatus_word_mapping_witness :
    CloudInitStatus ⟨none, none, .missing⟩ ⟨true, true, "status: not run\n"⟩ =
      (statusWordState "not run", none) ∧
    statusWordState "not run" = CloudInitState.cloudInitEnabled :=
  ⟨(cloudInitStatus_word_mapping ⟨none, none, .missing⟩ ⟨true, true, "status: not run\n"⟩
      "not run" rfl rfl rfl rfl (by decide)).1,
    (cloudInitStatus_word_mapping ⟨none, none, .missing⟩ ⟨true, true, "status: not run\n"⟩
      "not run" rfl rfl rfl rfl (by decide)).2.2.2.2.2.1⟩

/-- C7: the restriction engine errors in the errored and enabled states
without `ForceDisable`, treats them as the untriggered case with
`ForceDisable`, and in the untriggered and not-found states writes the
disable sentinel and reports the disable action. -/
theorem restrictCloudInit_nonDone_states (fs : FS) (opts : CloudInitRestrictOptions) :
    (opts.forceDisable = false →
      RestrictCloudInit .cloudInitErrored (some opts) fs =
        { res := { action := "", dataSource := "" }, err := some .errorOrEnabledState, fs := fs } ∧
      RestrictCloudInit .cloudInitEnabled (some opts) fs =
        { res := { action := "", dataSource := "" }, err := some .errorOrEnabledState, fs := fs }) ∧
    (opts.forceDisable = true →
      RestrictCloudInit .cloudInitErrored (some opts) fs =
        RestrictCloudInit .cloudInitUntriggered (some opts) fs ∧
      RestrictCloudInit .cloudInitEnabled (some opts) fs =
        RestrictCloudInit .cloudInitUntriggered (some opts) fs) ∧
    (∀ st, (st = CloudInitState.cloudInitUntriggered ∨ st = CloudInitState.cloudInitNotFound) →
      (RestrictCloudInit st (some opts) fs).res.action = "disable" ∧
      (RestrictCloudInit st (some opts) fs).err = none ∧
      (RestrictCloudInit st (some opts) fs).fs.disabledFile = some "") := by
  refine ⟨?_, ?_, ?_⟩
  · intro h
    constructor <;> simp [RestrictCloudInit, h]
  · intro h
    constructor <;> simp [RestrictCloudInit, h]
  · rintro st (rfl | rfl) <;> simp [RestrictCloudInit, DisableCloudInit]

/-- Witness for C7 at concrete options and filesystem. -/
theorem restrictCloudInit_nonDone_states_witness :
    RestrictCloudInit .cloudInitErrored (some ⟨false, false⟩) ⟨none, none, .missing⟩ =
      { res := { action := "", dataSource := "" }, err := some .errorOrEnabledState,
        fs := ⟨none, none, .missing⟩ } ∧
    (RestrictCloudInit .cloudInitUntriggered (some ⟨false, false⟩)
        ⟨none, none, .missing⟩).res.action = "disable" :=
  ⟨((restrictCloudInit_nonDone_states ⟨none, none, .missing⟩ ⟨false, false⟩).1 rfl).1,
    ((restrictCloudInit_nonDone_states ⟨none, none, .missing⟩ ⟨false, false⟩).2.2
      .cloudInitUntriggered (Or.inl rfl)).1⟩

/-- C6: in the done state, a missing or unreadable `status.json`, an
undecodable one, an empty `v1.datasource` field, and a datasource field
the pattern does not match all make the call return an error, with the
file footprint unchanged, so a later status query sees the same state. -/
theorem restrictCloudInit_error_paths_no_write (fs : FS)
    (opts : Option CloudInitRestrictOptions)
    (h : fs.statusJson = .missing ∨ fs.statusJson = .undecodable ∨
      fs.statusJson = .decoded "" ∨
      (∃ raw, fs.statusJson = .decoded raw ∧ datasourceReFind raw = none)) :
    (RestrictCloudInit .cloudInitDone opts fs).err ≠ none ∧
    (RestrictCloudInit .cloudInitDone opts fs).fs = fs ∧
    (∀ env, CloudInitStatus (RestrictCloudInit .cloudInitDone opts fs).fs env =
      CloudInitStatus fs env) := by
  have hfs : (RestrictCloudInit .cloudInitDone opts fs).err ≠ none ∧
      (RestrictCloudInit .cloudInitDone opts fs).fs = fs := by
    rcases h with h | h | h | ⟨raw, h, hfind⟩
    · simp [RestrictCloudInit, h]
    · simp [RestrictCloudInit, h]
    · simp [RestrictCloudInit, h]
    · by_cases hraw : raw = ""
      · subst hraw; simp [RestrictCloudInit, h]
      · simp [RestrictCloudInit, h, hraw, hfind]
  exact ⟨hfs.1, hfs.2, fun env => by rw [hfs.2]⟩

/-- Witness for C6 at a concrete filesystem whose `status.json` datasource
field does not match the extraction pattern. -/
theorem restrictCloudInit_error_paths_no_write_witness :
    (RestrictCloudInit .cloudInitDone none ⟨none, none, .decoded "weird"⟩).err ≠ none ∧
    (RestrictCloudInit .cloudInitDone none ⟨none, none, .decoded "weird"⟩).fs =
      ⟨none, none, .decoded "weird"⟩ :=
  ⟨(restrictCloudInit_error_paths_no_write ⟨none, none, .decoded "weird"⟩ none
      (Or.inr (Or.inr (Or.inr ⟨"weird", rfl, by decide⟩)))).1,
    (restrictCloudInit_error_paths_no_write ⟨none, none, .decoded "weird"⟩ none
      (Or.inr (Or.inr (Or.inr ⟨"weird", rfl, by decide⟩)))).2.1⟩

/-- C1: in the done state with default options (nil or zero-valued) and a
results record whose datasource extracts to NoCloud, the engine reports
the restrict action with datasource NoCloud, writes the NoCloud
restriction document — pinning `datasource_list` to NoCloud, nulling
`fs_label` and setting `manual_cache_clean` — and a later status query
reports restricted-by-snapd regardless of the agent environment (the
executable is never consulted). -/
theorem restrictCloudInit_done_nocloud_default (fs : FS)
    (opts : Option CloudInitRestrictOptions) (raw : String)
    (hopts : opts = none ∨
      opts = some { forceDisable := false, disableAfterLocalDatasourcesRun := false })
    (hjson : fs.statusJson = .decoded raw)
    (hds : datasourceReFind raw = some "NoCloud") :
    (RestrictCloudInit .cloudInitDone opts fs).err = none ∧
    (RestrictCloudInit .cloudInitDone opts fs).res =
      { action := "restrict", dataSource := "NoCloud" } ∧
    (RestrictCloudInit .cloudInitDone opts fs).fs.restrictFile = some nocloudRestrictYaml ∧
    nocloudRestrictYaml =
      "datasource_list: [NoCloud]\ndatasource:\n  NoCloud:\n    fs_label: null\nmanual_cache_clean: true\n" ∧
    (∀ env, CloudInitStatus (RestrictCloudInit .cloudInitDone opts fs).fs env =
      (.cloudInitRestrictedBySnapd, none)) := by
  have hraw : ¬(raw = "") := by
    intro e
    subst e
    simp [datasourceReFind, datasourceMatch] at hds
  rcases hopts with rfl | rfl <;>
    refine ⟨?_, ?_, ?_, rfl, fun env => ?_⟩ <;>
    simp [RestrictCloudInit, zeroRestrictOpts, hjson, hraw, hds, localDatasources,
      CloudInitStatus]

/-- Witness for C1 at a concrete filesystem with the NoCloud results
record the source documents. -/
theorem restrictCloudInit_done_nocloud_default_witness :
    (RestrictCloudInit .cloudInitDone none
      ⟨none, none, .decoded "DataSourceNoCloud [seed=/dev/sr0][dsmode=net]"⟩).err = none ∧
    (RestrictCloudInit .cloudInitDone none
      ⟨none, none, .decoded "DataSourceNoCloud [seed=/dev/sr0][dsmode=net]"⟩).fs.restrictFile =
      some nocloudRestrictYaml :=
  ⟨(restrictCloudInit_done_nocloud_default
      ⟨none, none, .decoded "DataSourceNoCloud [seed=/dev/sr0][dsmode=net]"⟩ none
      "DataSourceNoCloud [seed=/dev/sr0][dsmode=net]" (Or.inl rfl) rfl (by decide)).1,
    (restrictCloudInit_done_nocloud_default
      ⟨none, none, .decoded "DataSourceNoCloud [seed=/dev/sr0][dsmode=net]"⟩ none
      "DataSourceNoCloud [seed=/dev/sr0][dsmode=net]" (Or.inl rfl) rfl (by decide)).2.2.1⟩

/-- C4: in a configuration whose status is done, with
`DisableAfterLocalDatasourcesRun` set and a resolved local datasource
(NoCloud or None), the engine writes the disable sentinel, reports the
disable action, and a later status query reports permanently disabled. -/
theorem restrictCloudInit_disable_local_after_run (fs : FS) (env : CloudInitEnv)
    (opts : CloudInitRestrictOptions) (raw ds : String)
    (hstate : (CloudInitStatus fs env).1 = .cloudInitDone)
    (hopts : opts.disableAfterLocalDatasourcesRun = true)
    (hjson : fs.statusJson = .decoded raw)
    (hfind : datasourceReFind raw = some ds)
    (hlocal : ds = "NoCloud" ∨ ds = "None") :
    (RestrictCloudInit .cloudInitDone (some opts) fs).err = none ∧
    (RestrictCloudInit .cloudInitDone (some opts) fs).res.action = "disable" ∧
    (RestrictCloudInit .cloudInitDone (some opts) fs).fs.disabledFile = some "" ∧
    (∀ env2, CloudInitStatus (RestrictCloudInit .cloudInitDone (some opts) fs).fs env2 =
      (.cloudInitDisabledPermanently, none)) := by
  have hr : fs.restrictFile = none := by
    cases hrf : fs.restrictFile with
    | none => rfl
    | some v => simp [CloudInitStatus, hrf] at hstate
  have hraw : ¬(raw = "") := by
    intro e
    subst e
    simp [datasourceReFind, datasourceMatch] at hfind
  rcases hlocal with rfl | rfl <;>
    refine ⟨?_, ?_, ?_, fun env2 => ?_⟩ <;>
    simp [RestrictCloudInit, DisableCloudInit, hjson, hraw, hfind, hopts,
      localDatasources, CloudInitStatus, hr]

/-- Witness for C4 at a concrete filesystem with the None datasource. -/
theorem restrictCloudInit_disable_local_after_run_witness :
    (RestrictCloudInit .cloudInitDone (some ⟨false, true⟩)
      ⟨none, none, .decoded "DataSourceNone"⟩).err = none ∧
    (RestrictCloudInit .cloudInitDone (some ⟨false, true⟩)
      ⟨none, none, .decoded "DataSourceNone"⟩).res.action = "disable" :=
  ⟨(restrictCloudInit_disable_local_after_run ⟨none, none, .decoded "DataSourceNone"⟩
      ⟨true, true, "status: done\n"⟩ ⟨false, true⟩ "DataSourceNone" "None"
      (by decide) rfl rfl (by decide) (Or.inr rfl)).1,
    (restrictCloudInit_disable_local_after_run ⟨none, none, .decoded "DataSourceNone"⟩
      ⟨true, true, "status: done\n"⟩ ⟨false, true⟩ "DataSourceNone" "None"
      (by decide) rfl rfl (by decide) (Or.inr rfl)).2.1⟩

lemma datasourceReFind_ec2 (s : String) :
    datasourceReFind ("DataSourceEc2 [seed=" ++ s ++ "]") = some "Ec2" := by
  have h : ("DataSourceEc2 [seed=" ++ s ++ "]").data
      = "DataSourceEc2 [seed=".data ++ (s.data ++ "]".data) := by
    simp [String.data_append]
  rw [datasourceReFind, h]
  simp [datasourceMatch, isAlnum, List.takeWhile]

/-- C5: in the done state with default options, a raw datasource field of
the shape `DataSourceEc2 [seed=...]` extracts to the identifier `Ec2`
(the source-specific suffix stripped by the pattern), and the restriction
document written is exactly the single pinned datasource-list line — no
`fs_label` nulling, no `manual_cache_clean`. -/
theorem restrictCloudInit_ec2_suffix_stripped (fs : FS)
    (opts : Option CloudInitRestrictOptions) (s : String)
    (hopts : opts = none ∨
      opts = some { forceDisable := false, disableAfterLocalDatasourcesRun := false })
    (hjson : fs.statusJson = .decoded ("DataSourceEc2 [seed=" ++ s ++ "]")) :
    (RestrictCloudInit .cloudInitDone opts fs).err = none ∧
    (RestrictCloudInit .cloudInitDone opts fs).res =
      { action := "restrict", dataSource := "Ec2" } ∧
    (RestrictCloudInit .cloudInitDone opts fs).fs.restrictFile =
      some "datasource_list: [Ec2]\n" := by
  have hraw : ¬("DataSourceEc2 [seed=" ++ s ++ "]" = "") := by
    intro e
    have h2 := congrArg String.data e
    simp [String.data_append] at h2
  have hfind := datasourceReFind_ec2 s
  rcases hopts with rfl | rfl <;>
    refine ⟨?_, ?_, ?_⟩ <;>
    simp [RestrictCloudInit, zeroRestrictOpts, hjson, hraw, hfind, localDatasources,
      genericCloudRestrictYaml]

/-- Witness for C5 at a concrete seed annotation. -/
theorem restrictCloudInit_ec2_suffix_stripped_witness :
    (RestrictCloudInit .cloudInitDone none
      ⟨none, none, .decoded ("DataSourceEc2 [seed=" ++ "/dev/sr0" ++ "]")⟩).res =
      { action := "restrict", dataSource := "Ec2" } ∧
    (RestrictCloudInit .cloudInitDone none
      ⟨none, none, .decoded ("DataSourceEc2 [seed=" ++ "/dev/sr0" ++ "]")⟩).fs.restrictFile =
      some "datasource_list: [Ec2]\n" :=
  ⟨(restrictCloudInit_ec2_suffix_stripped
      ⟨none, none, .decoded ("DataSourceEc2 [seed=" ++ "/dev/sr0" ++ "]")⟩ none
      "/dev/sr0" (Or.inl rfl) rfl).2.1,
    (restrictCloudInit_ec2_suffix_stripped
      ⟨none, none, .decoded ("DataSourceEc2 [seed=" ++ "/dev/sr0" ++ "]")⟩ none
      "/dev/sr0" (Or.inl rfl) rfl).2.2⟩

lemma restrictCloudInit_success_marker (st : CloudInitState)
    (opts : Option CloudInitRestrictOptions) (fs : FS)
    (h : (RestrictCloudInit st opts fs).err = none) :
    (RestrictCloudInit st opts fs).fs.restrictFile.isSome = true ∨
    (RestrictCloudInit st opts fs).fs.disabledFile = some "" := by
  cases st with
  | cloudInitRestrictedBySnapd => simp [RestrictCloudInit] at h
  | cloudInitDisabledPermanently => simp [RestrictCloudInit] at h
  | cloudInitUntriggered => right; simp [RestrictCloudInit, DisableCloudInit]
  | cloudInitNotFound => right; simp [RestrictCloudInit, DisableCloudInit]
  | cloudInitErrored =>
      cases hf : (opts.getD zeroRestrictOpts).forceDisable
      · simp [RestrictCloudInit, hf] at h
      · right; simp [RestrictCloudInit, DisableCloudInit, hf]
  | cloudInitEnabled =>
      cases hf : (opts.getD zeroRestrictOpts).forceDisable
      · simp [RestrictCloudInit, hf] at h
      · right; simp [RestrictCloudInit, DisableCloudInit, hf]
  | cloudInitDone =>
      cases hsj : fs.statusJson with
      | missing => simp [RestrictCloudInit, hsj] at h
      | undecodable => simp [RestrictCloudInit, hsj] at h
      | decoded raw =>
          by_cases hraw : raw = ""
          · simp [RestrictCloudInit, hsj, hraw] at h
          · cases hfind : datasourceReFind raw with
            | none => simp [RestrictCloudInit, hsj, hraw, hfind] at h
            | some ds =>
                by_cases hloc : ((opts.getD zeroRestrictOpts).disableAfterLocalDatasourcesRun = true
                    ∧ ds ∈ localDatasources)
                · right
                  simp [RestrictCloudInit, DisableCloudInit, hsj, hraw, hfind, hloc]
                · by_cases hnc : ds = "NoCloud"
                  · subst hnc
                    left; simp [RestrictCloudInit, hsj, hraw, hfind, hloc]
                  · left; simp [RestrictCloudInit, hsj, hraw, hfind, hloc, hnc]

/-- C3: whenever a first call to the restriction engine succeeds — taking
either terminal action — a second call, passed the state a fresh status
query reports over the resulting filesystem, errors as already restricted
or already disabled. -/
theorem restrictCloudInit_second_call_errors (fs : FS)
    (opts1 opts2 : Option CloudInitRestrictOptions) (st1 : CloudInitState)
    (env : CloudInitEnv)
    (h : (RestrictCloudInit st1 opts1 fs).err = none) :
    (RestrictCloudInit (CloudInitStatus (RestrictCloudInit st1 opts1 fs).fs env).1 opts2
        (RestrictCloudInit st1 opts1 fs).fs).err = some RestrictErr.alreadyRestricted ∨
    (RestrictCloudInit (CloudInitStatus (RestrictCloudInit st1 opts1 fs).fs env).1 opts2
        (RestrictCloudInit st1 opts1 fs).fs).err = some RestrictErr.alreadyDisabled := by
  rcases restrictCloudInit_success_marker st1 opts1 fs h with hm | hm
  · left
    have hst : (CloudInitStatus (RestrictCloudInit st1 opts1 fs).fs env).1 =
        .cloudInitRestrictedBySnapd := by
      simp [CloudInitStatus, hm]
    rw [hst]
    simp [RestrictCloudInit]
  · cases hrf : (RestrictCloudInit st1 opts1 fs).fs.restrictFile with
    | some v =>
        left
        have hst : (CloudInitStatus (RestrictCloudInit st1 opts1 fs).fs env).1 =
            .cloudInitRestrictedBySnapd := by
          simp [CloudInitStatus, hrf]
        rw [hst]
        simp [RestrictCloudInit]
    | none =>
        right
        have hst : (CloudInitStatus (RestrictCloudInit st1 opts1 fs).fs env).1 =
            .cloudInitDisabledPermanently := by
          simp [CloudInitStatus, hrf, hm]
        rw [hst]
        simp [RestrictCloudInit]

/-- Witness for C3: a successful NoCloud restriction followed by a second
call on the freshly observed state. -/
theorem restrictCloudInit_second_call_errors_witness :
    (RestrictCloudInit
      (CloudInitStatus (RestrictCloudInit .cloudInitDone none
          ⟨none, none, .decoded "DataSourceNoCloud"⟩).fs ⟨true, true, "status: done\n"⟩).1
      none
      (RestrictCloudInit .cloudInitDone none
        ⟨none, none, .decoded "DataSourceNoCloud"⟩).fs).err =
        some RestrictErr.alreadyRestricted ∨
    (RestrictCloudInit
      (CloudInitStatus (RestrictCloudInit .cloudInitDone none
          ⟨none, none, .decoded "DataSourceNoCloud"⟩).fs ⟨true, true, "status: done\n"⟩).1
      none
      (RestrictCloudInit .cloudInitDone none
        ⟨none, none, .decoded "DataSourceNoCloud"⟩).fs).err =
        some RestrictErr.alreadyDisabled :=
  restrictCloudInit_second_call_errors ⟨none, none, .decoded "DataSourceNoCloud"⟩
    none none .cloudInitDone ⟨true, true, "status: done\n"⟩ (by decide)

/-- C2: for grade secured the installer never performs a seed-area
install, whatever the seed area holds (the trace carries the call
arguments and no seed-area call occurs), and on a well-formed invocation
it returns without error right after the gadget step, gadget config
installed when present. -/
theorem configureCloudInit_secured_no_seed_install (opts : Options) (hasGadget : Bool) :
    (∀ step ∈ (configureCloudInit "secured" hasGadget opts).1,
      step.isSeedInstall = false) ∧
    (opts.targetRootDir ≠ "" → opts.allowCloudInit = true →
      (configureCloudInit "secured" hasGadget opts).2 = none ∧
      (configureCloudInit "secured" hasGadget opts).1 =
        (if hasGadget then
          [InstallStep.installGadgetCloudInitCfg (opts.gadgetDir ++ "/cloud.conf")
            (WritableDefaultsDir opts.targetRootDir)]
         else [])) := by
  constructor
  · intro step hstep
    by_cases h1 : opts.targetRootDir = ""
    · simp [configureCloudInit, h1] at hstep
    · cases h2 : opts.allowCloudInit with
      | false =>
          simp [configureCloudInit, h1, h2] at hstep
          subst hstep
          rfl
      | true =>
          cases hasGadget <;> simp [configureCloudInit, h1, h2] at hstep
          subst hstep
          rfl
  · intro h1 h2
    cases hasGadget <;> simp [configureCloudInit, h1, h2]

/-- Witness for C2 with a gadget config present, a seed dir supplied and a
well-formed invocation. -/
theorem configureCloudInit_secured_no_seed_install_witness :
    (∀ step ∈ (configureCloudInit "secured" true
      ⟨"/run/mnt/data", true, "/run/mnt/seed/data", "/gadget"⟩).1,
      step.isSeedInstall = false) ∧
    (configureCloudInit "secured" true
      ⟨"/run/mnt/data", true, "/run/mnt/seed/data", "/gadget"⟩).2 = none :=
  ⟨(configureCloudInit_secured_no_seed_install
      ⟨"/run/mnt/data", true, "/run/mnt/seed/data", "/gadget"⟩ true).1,
    ((configureCloudInit_secured_no_seed_install
      ⟨"/run/mnt/data", true, "/run/mnt/seed/data", "/gadget"⟩ true).2
      (by decide) rfl).1⟩

end Cloudinit
